import Mathlib

/-!
Verification of the rule validation and compilation pipeline of the
ClickHouse agent-skills repository.

The TypeScript sources are shallowly embedded as pure Lean functions:

* `validate-sql` (hardened variant): `containsDangerousPatterns`,
  `validateSQL`, `ensureClickHouse`, `validateSQLInRules`.  The engine
  subprocess is modelled by an explicit effect trace (`SQLEffect`) and the
  engine's stderr output is an oracle argument.
* `validate-sql.ts` of the build package (no deny-list, no restriction
  flags): `BuildPkg.validateSQL`.
* `check-external-links`: `validateUrl` with the network modelled as an
  oracle `Nat → AttemptEnv` giving each attempt's HEAD/GET outcomes; the
  function additionally returns the total number of milliseconds slept
  between attempts.
* `check-links` (internal links): `extractLinks`, `isInternalLink`,
  `checkFileLinks`, `checkLinks`.
* The compiler (`build.ts`) is not present under `src/`; it is modelled
  from the spec (section 4.6) as `compileDocument` / `build`.
-/

/-! ## Character helpers (ASCII, as used by the JS regexes) -/

/-- ASCII whitespace characters recognised by the JS `\s` class on the
inputs at hand: space, tab, newline, carriage return, vertical tab, form
feed. -/
def isWsChar (c : Char) : Bool :=
  c == ' ' || c == '\t' || c == '\n' || c == '\r' || c == '\x0b' || c == '\x0c'

/-- JS `\w` word characters: `[A-Za-z0-9_]`. -/
def isWordChar (c : Char) : Bool :=
  c.isAlpha || c.isDigit || c == '_'

/-- ASCII lower-case code of a character, for the case-insensitive `/i`
regex flag. -/
def lcCode (c : Char) : Nat :=
  if 65 ≤ c.toNat && c.toNat ≤ 90 then c.toNat + 32 else c.toNat

/-- Bool test that `pre` is a prefix of `l` (char lists). -/
def listPrefixB : List Char → List Char → Bool
  | [], _ => true
  | _ :: _, [] => false
  | a :: as, b :: bs => a == b && listPrefixB as bs

/-- `strStartsWith s p` : does `s` start with `p`? (JS `String.startsWith`). -/
def strStartsWith (s p : String) : Bool :=
  listPrefixB p.data s.data

/-- `strEndsWith s p` : does `s` end with `p`? (JS `String.endsWith`). -/
def strEndsWith (s p : String) : Bool :=
  listPrefixB p.data.reverse s.data.reverse

/-- Does `needle` occur as a prefix of `hay`? -/
def substrAt : List Char → List Char → Bool
  | [], _ => true
  | _ :: _, [] => false
  | n :: ns, h :: hs => n == h && substrAt ns hs

/-- Does `needle` occur anywhere inside `hay`? (JS `String.includes`). -/
def containsSub (needle : List Char) : List Char → Bool
  | [] => substrAt needle []
  | h :: hs => substrAt needle (h :: hs) || containsSub needle hs

/-- JS `String.trim`: drop leading and trailing whitespace. -/
def strTrim (s : String) : String :=
  ⟨(((s.data.dropWhile isWsChar).reverse).dropWhile isWsChar).reverse⟩

/-! ## SQL validator: comment stripping and deny-list (src/unnamed/part_010)

The source preprocesses a snippet with three global regex replacements:
block comments `\x2f\*[\s\S]*?\*\x2f` to a space, line comments
`--[^\n]*` to a space, and `\s+` to a single space; it then tests each
deny-list pattern `\bNAME\s*\(` case-insensitively. -/

/-- Scan for the first `*/`; returns the remainder after it (the lazy
`[\s\S]*?` of the block-comment regex). -/
def findCloseBlock : List Char → Option (List Char)
  | [] => none
  | '*' :: '/' :: rest => some rest
  | _ :: rest => findCloseBlock rest

/-- One left-to-right pass replacing each terminated `/* ... */` comment by
a single space; an unterminated `/*` is left in place, exactly as the
regex (which requires the closing `*/`) leaves it.  The fuel argument is
only a termination device: every step consumes at least one character, so
`fuel = length` (as supplied by `stripBlockComments`) never runs out. -/
def stripBlockFuel : Nat → List Char → List Char
  | 0, l => l
  | _ + 1, [] => []
  | fuel + 1, '/' :: '*' :: rest =>
    match findCloseBlock rest with
    | some rem => ' ' :: stripBlockFuel fuel rem
    | none => '/' :: '*' :: rest
  | fuel + 1, c :: rest => c :: stripBlockFuel fuel rest

def stripBlockComments (l : List Char) : List Char :=
  stripBlockFuel l.length l

/-- Remainder of a line-comment match: everything up to (excluding) the
next newline is part of the `--[^\n]*` match. -/
def dropToEol : List Char → List Char
  | [] => []
  | '\n' :: rest => '\n' :: rest
  | _ :: rest => dropToEol rest

/-- One left-to-right pass replacing each `--` line comment (up to the end
of the line) by a single space.  Fuel as in `stripBlockFuel`. -/
def stripLineFuel : Nat → List Char → List Char
  | 0, l => l
  | _ + 1, [] => []
  | fuel + 1, '-' :: '-' :: rest => ' ' :: stripLineFuel fuel (dropToEol rest)
  | fuel + 1, c :: rest => c :: stripLineFuel fuel rest

def stripLineComments (l : List Char) : List Char :=
  stripLineFuel l.length l

/-- Replace every maximal run of whitespace by a single space
(`.replace(/\s+/g, ' ')`). -/
def collapseWs : List Char → List Char
  | [] => []
  | [c] => if isWsChar c then [' '] else [c]
  | c1 :: c2 :: rest =>
    if isWsChar c1 && isWsChar c2 then collapseWs (c2 :: rest)
    else (if isWsChar c1 then ' ' else c1) :: collapseWs (c2 :: rest)

/-- The `sqlNoComments` preprocessing of `containsDangerousPatterns`:
strip block comments, then line comments, then normalise whitespace. -/
def sqlNoComments (l : List Char) : List Char :=
  collapseWs (stripLineComments (stripBlockComments l))

/-- Match `name` case-insensitively at the head of `l`; returns the
remainder on success. -/
def matchNameCI : List Char → List Char → Option (List Char)
  | [], l => some l
  | _ :: _, [] => none
  | n :: ns, c :: cs => if lcCode n = lcCode c then matchNameCI ns cs else none

/-- Does `name` followed by `\s*` and `(` match at the head of `l`? -/
def matchAt (name l : List Char) : Bool :=
  match matchNameCI name l with
  | some rest =>
    match rest.dropWhile isWsChar with
    | '(' :: _ => true
    | _ => false
  | none => false

/-- Scan `l` for a position with a `\b` word boundary on the left where
`name\s*\(` matches (the regex `\bNAME\s*\(` with the `i` flag).
`prevWord` records whether the previous character was a word character. -/
def scanPattern (name : List Char) : Bool → List Char → Bool
  | _, [] => false
  | prevWord, c :: rest =>
    if !prevWord && matchAt name (c :: rest) then true
    else scanPattern name (isWordChar c) rest

/-- The deny-list of dangerous constructs, in source order:
pattern name and its description. -/
def dangerousList : List (String × String) :=
  [ ("file", "file() table function (file system access)"),
    ("url", "url() table function (HTTP access)"),
    ("s3", "s3() table function (cloud storage access)"),
    ("mysql", "mysql() table function (database access)"),
    ("postgresql", "postgresql() table function (database access)"),
    ("mongodb", "mongodb() table function (database access)"),
    ("hdfs", "hdfs() table function (HDFS access)"),
    ("odbc", "odbc() table function (ODBC access)"),
    ("jdbc", "jdbc() table function (JDBC access)"),
    ("executable", "executable() table function (command execution)"),
    ("remote", "remote() table function (remote server access)"),
    ("cluster", "cluster() table function (cluster access)"),
    ("input", "input() table function (stdin access)"),
    ("sleep", "sleep() function (timing attack vector)"),
    ("throwIf", "throwIf() function (error-based exfiltration)") ]

/-- `containsDangerousPatterns` of src/unnamed/part_010: strips comments,
normalises whitespace and returns the security message of the first
matching deny-list pattern, `none` if no pattern matches. -/
def containsDangerousPatterns (sql : String) : Option String :=
  let s := sqlNoComments sql.data
  (dangerousList.find? (fun p => scanPattern p.1.data false s)).map
    (fun p => "Security: SQL contains dangerous pattern: " ++ p.2)

/-! ## SQL validator: engine invocation -/

/-- Externally visible effects of one `validateSQL` call. -/
inductive SQLEffect where
  | writeTempFile (sql : String)
  | invokeEngine (flags : List String) (sql : String)
deriving DecidableEq

/-- The restrictive flag set of the hardened `validateSQL` command line. -/
def restrictiveFlags : List String :=
  [ "--readonly=2", "--allow_introspection_functions=0", "--allow_ddl=0",
    "--max_execution_time=10", "--max_memory_usage=100000000",
    "--max_rows_to_read=1000000", "--user_files_path=/dev/null",
    "--format_schema_path=/dev/null" ]

/-- All flags of the hardened engine invocation. -/
def hardenedEngineFlags : List String :=
  "--output-format=Null" :: restrictiveFlags

/-- All flags of the build package's engine invocation: only the output
format, none of the restriction flags. -/
def buildEngineFlags : List String :=
  ["--output-format=Null"]

/-- The stderr test of both validators:
`stderr && (stderr.includes('Exception') || stderr.includes('Error'))`. -/
def stderrIndicatesError (stderr : String) : Bool :=
  !(stderr == "") &&
    (containsSub "Exception".data stderr.data || containsSub "Error".data stderr.data)

/-- Hardened `validateSQL` (src/unnamed/part_010): deny-list check first;
only when it passes is the snippet written to a temporary file and the
engine invoked with the restrictive flag set.  `engineStderr` is the
oracle for the engine's stderr output. -/
def validateSQL (sql : String) (engineStderr : String) :
    Option String × List SQLEffect :=
  match containsDangerousPatterns sql with
  | some msg => (some msg, [])
  | none =>
    ((if stderrIndicatesError engineStderr then some (strTrim engineStderr) else none),
     [SQLEffect.writeTempFile sql, SQLEffect.invokeEngine hardenedEngineFlags sql])

namespace BuildPkg

/-- `validateSQL` of packages/clickhouse-best-practices-build/src/validate-sql.ts:
no deny-list check, and the engine is invoked with no restriction flags. -/
def validateSQL (sql : String) (engineStderr : String) :
    Option String × List SQLEffect :=
  ((if stderrIndicatesError engineStderr then some (strTrim engineStderr) else none),
   [SQLEffect.writeTempFile sql, SQLEffect.invokeEngine buildEngineFlags sql])

end BuildPkg

/-! ## SQL validator: binary acquisition and top-level run (part_010) -/

/-- `process.platform` values as seen by `getPlatform`. -/
inductive NodePlatform where
  | darwin
  | linux
  | other (name : String)
deriving DecidableEq

inductive PlatformClass where
  | macos
  | linux
  | unsupported
deriving DecidableEq

/-- `getPlatform` of part_010. -/
def getPlatform : NodePlatform → PlatformClass
  | .darwin => .macos
  | .linux => .linux
  | .other _ => .unsupported

def clickhouseVersion : String := "24.1.8.22"

/-- `getDownloadUrl` of part_010. -/
def getDownloadUrl (p : NodePlatform) : Option String :=
  match getPlatform p with
  | .macos =>
    some ("https://github.com/ClickHouse/ClickHouse/releases/download/v"
      ++ clickhouseVersion ++ "/clickhouse-macos")
  | .linux =>
    some ("https://github.com/ClickHouse/ClickHouse/releases/download/v"
      ++ clickhouseVersion ++ "/clickhouse")
  | .unsupported => none

/-- `ensureClickHouse`: true iff the binary ends up available.  The file
system and the network download are oracles (`binaryExists`,
`downloadSucceeds`). -/
def ensureClickHouse (binaryExists : Bool) (p : NodePlatform)
    (downloadSucceeds : Bool) : Bool :=
  if binaryExists then true
  else
    match getDownloadUrl p with
    | none => false
    | some _ => downloadSucceeds

/-- Observable outcome of a `validateSQLInRules` run: whether SQL
validation was skipped with a warning, and the process exit code. -/
structure SQLRunOutcome where
  skippedWithWarning : Bool
  exitCode : Nat
deriving DecidableEq

/-- Exit behaviour of `validateSQLInRules` (part_010): when the binary is
unavailable the run warns and exits 0; otherwise it exits 1 exactly when
some SQL example produced an error. -/
def validateSQLInRules (binaryExists : Bool) (p : NodePlatform)
    (downloadSucceeds : Bool) (errorCount : Nat) : SQLRunOutcome :=
  let hasClickHouse := ensureClickHouse binaryExists p downloadSucceeds
  if !hasClickHouse then ⟨true, 0⟩
  else ⟨false, if errorCount > 0 then 1 else 0⟩

/-! ## External link checker (src/unnamed/part_009)

`validateUrl` probes one URL with up to `maxRetries` additional attempts,
sleeping `RETRY_DELAYS[min(attempt-1, RETRY_DELAYS.length-1)]` ms before
each retry.  The network is an oracle `Nat → AttemptEnv` mapping the
attempt index to that attempt's HEAD/GET outcomes. -/

def TIMEOUT_MS : Nat := 10000

def MAX_RETRIES : Nat := 2

def CONCURRENCY : Nat := 5

def RETRY_DELAYS : List Nat := [100, 200, 400]

/-- The delay slept before retry number `attempt` (`attempt ≥ 1`):
`RETRY_DELAYS[Math.min(attempt - 1, RETRY_DELAYS.length - 1)]`. -/
def retryDelay (attempt : Nat) : Nat :=
  RETRY_DELAYS.getD (min (attempt - 1) (RETRY_DELAYS.length - 1)) 0

/-- An HTTP response as observed through `fetch`. -/
structure HttpResponse where
  status : Nat
  statusText : String
deriving DecidableEq

/-- Outcome of one `fetch` call: a response, or a thrown error
(abort/timeout, DNS failure, connection refused, other). -/
inductive FetchOutcome where
  | resp (r : HttpResponse)
  | abortError
  | dnsError
  | connRefusedError
  | otherError (msg : String)
deriving DecidableEq

/-- `response.ok`: status in the range 200–299. -/
def respOk (r : HttpResponse) : Bool :=
  decide (200 ≤ r.status ∧ r.status < 300)

/-- Error classification of the catch block of `validateUrl`. -/
def classifyError : FetchOutcome → String
  | .abortError => "Request timeout"
  | .dnsError => "DNS lookup failed"
  | .connRefusedError => "Connection refused"
  | .otherError msg => if msg == "" then "Unknown error" else msg
  | .resp _ => ""

/-- Network behaviour of one attempt: the outcome of the HEAD request and
(the outcome the GET request would have, were it issued). -/
structure AttemptEnv where
  headReq : FetchOutcome
  getReq : FetchOutcome
deriving DecidableEq

inductive HttpMethod where
  | head
  | get
deriving DecidableEq

/-- Result of one attempt of the `for` loop of `validateUrl`:
success with a 2xx status, failure with a recorded status code and error
text, or a thrown-error failure (which leaves `lastStatusCode` as it
was). -/
inductive AttemptResult where
  | success (status : Nat)
  | failStatus (code : Nat) (errMsg : String)
  | failError (errMsg : String)
deriving DecidableEq

/-- One attempt: HEAD first; on a non-ok HEAD response fall back to GET; a
thrown HEAD error skips the GET.  Also returns the list of requests
actually issued, in order. -/
def runAttempt (env : AttemptEnv) : AttemptResult × List HttpMethod :=
  match env.headReq with
  | .resp r =>
    if respOk r then (.success r.status, [.head])
    else
      match env.getReq with
      | .resp g =>
        if respOk g then (.success g.status, [.head, .get])
        else (.failStatus g.status (toString g.status ++ " " ++ g.statusText),
              [.head, .get])
      | e => (.failError (classifyError e), [.head, .get])
  | e => (.failError (classifyError e), [.head])

/-- `LinkCheckResult` of part_009 (`source` is the pair skill/file). -/
structure LinkCheckResult where
  url : String
  success : Bool
  statusCode : Option Nat
  error : Option String
  source : String × String
  retriesUsed : Nat
deriving DecidableEq

/-- The retry loop of `validateUrl`.  `remaining` counts the attempts left
(the loop runs `maxRetries + 1` times), `attempt` is the current attempt
index; `lastError`, `lastStatusCode`, `retriesUsed` are the loop-carried
variables.  The second component of the result is the total number of
milliseconds slept in `sleep` calls. -/
def validateUrlAux (url : String) (src : String × String)
    (envs : Nat → AttemptEnv) :
    Nat → Nat → String → Option Nat → Nat → Nat → LinkCheckResult × Nat
  | 0, _, lastErr, lastStatusCode, retriesUsed, slept =>
    (⟨url, false, lastStatusCode, some lastErr, src, retriesUsed⟩, slept)
  | remaining + 1, attempt, _lastErr, lastStatusCode, retriesUsed, slept =>
    let slept2 := if attempt > 0 then slept + retryDelay attempt else slept
    let retriesUsed2 := if attempt > 0 then retriesUsed + 1 else retriesUsed
    match (runAttempt (envs attempt)).1 with
    | .success s => (⟨url, true, some s, none, src, retriesUsed2⟩, slept2)
    | .failStatus c m =>
      validateUrlAux url src envs remaining (attempt + 1) m (some c) retriesUsed2 slept2
    | .failError m =>
      validateUrlAux url src envs remaining (attempt + 1) m lastStatusCode retriesUsed2 slept2

/-- `validateUrl` of part_009, with the network as an oracle. -/
def validateUrl (url : String) (src : String × String)
    (envs : Nat → AttemptEnv) (maxRetries : Nat) : LinkCheckResult × Nat :=
  validateUrlAux url src envs (maxRetries + 1) 0 "" none 0 0

/-- Oracle where every attempt fails with a DNS error. -/
def dnsFailEnv : Nat → AttemptEnv :=
  fun _ => ⟨FetchOutcome.dnsError, FetchOutcome.dnsError⟩

/-- Oracle where the first two attempts time out and the third returns a
200 HEAD response. -/
def timeoutTwiceEnv : Nat → AttemptEnv :=
  fun i =>
    if i < 2 then ⟨FetchOutcome.abortError, FetchOutcome.abortError⟩
    else ⟨FetchOutcome.resp ⟨200, "OK"⟩, FetchOutcome.resp ⟨200, "OK"⟩⟩

/-- Oracle where every HEAD request immediately returns 204. -/
def okEnv : Nat → AttemptEnv :=
  fun _ => ⟨FetchOutcome.resp ⟨204, "No Content"⟩, FetchOutcome.resp ⟨204, "No Content"⟩⟩

/-! ## Internal link checker (src/unnamed/part_008) -/

/-- Split `l` at the first occurrence of `stop`: the (possibly empty)
content before it and the remainder after it; `none` if `stop` is
absent. -/
def splitAtChar (stop : Char) : List Char → Option (List Char × List Char)
  | [] => none
  | c :: rest =>
    if c = stop then some ([], rest)
    else
      match splitAtChar stop rest with
      | some (tk, rem) => some (c :: tk, rem)
      | none => none

/-- The `[^X]+X` part of the link regex: at least one character before the
first `stop`. -/
def takeUntil (stop : Char) (l : List Char) : Option (List Char × List Char) :=
  match splitAtChar stop l with
  | some ([], _) => none
  | some (tk, rem) => some (tk, rem)
  | none => none

/-- Position-by-position scan for the markdown link regex
`\[([^\]]+)\]\(([^)]+)\)`, collecting the targets (group 2) of all
non-overlapping matches, like repeated `exec` with the `g` flag.  Fuel is
a termination device; every step consumes at least one character, so
`fuel = length` never runs out. -/
def extractLinksAux : Nat → List Char → List String
  | 0, _ => []
  | _ + 1, [] => []
  | fuel + 1, '[' :: rest =>
    (match takeUntil ']' rest with
     | some (_, rest2) =>
       match rest2 with
       | '(' :: rest3 =>
         (match takeUntil ')' rest3 with
          | some (target, rest4) => (⟨target⟩ : String) :: extractLinksAux fuel rest4
          | none => extractLinksAux fuel rest)
       | _ => extractLinksAux fuel rest
     | none => extractLinksAux fuel rest)
  | fuel + 1, _ :: rest => extractLinksAux fuel rest

/-- `extractLinks` of part_008 (also `extractMarkdownLinks` of part_009):
all markdown link targets of the content, in order. -/
def extractLinks (content : String) : List String :=
  extractLinksAux content.data.length content.data

/-- `isInternalLink`: not starting with http: or https: scheme. -/
def isInternalLink (link : String) : Bool :=
  !(strStartsWith link "http://") && !(strStartsWith link "https://")

/-- `isExternalUrl` of part_009. -/
def isExternalUrl (url : String) : Bool :=
  strStartsWith url "http://" || strStartsWith url "https://"

/-- Node's `path.basename`: the component after the last `/`. -/
def basenameAux (cur : List Char) : List Char → List Char
  | [] => cur
  | '/' :: rest => basenameAux [] rest
  | c :: rest => basenameAux (cur ++ [c]) rest

def basename (s : String) : String :=
  ⟨basenameAux [] s.data⟩

/-- A reported internal-link violation. -/
structure LinkError where
  file : String
  link : String
  message : String
deriving DecidableEq

/-- Decision of the inner loop of `checkLinks` for one link: a `.md` link
is resolved by basename against the rule file names; an anchor link
(starting `#`) is analysed but never reported (the source comments the
check out as too strict); any other internal link is ignored. -/
def classifyLink (ruleFiles : List String) (file link : String) : Option LinkError :=
  if isInternalLink link then
    if strEndsWith link ".md" then
      if ruleFiles.contains (basename link) then none
      else some ⟨file, link, "Referenced file does not exist: " ++ basename link⟩
    else if strStartsWith link "#" then none
    else none
  else none

/-- All violations reported for one rule file's content. -/
def checkFileLinks (ruleFiles : List String) (file content : String) :
    List LinkError :=
  (extractLinks content).filterMap (classifyLink ruleFiles file)

/-- Rule file names of a directory listing (entries are name/content
pairs): the names ending in `.md`. -/
def ruleFilesOf (entries : List (String × String)) : List String :=
  (entries.map Prod.fst).filter (fun f => strEndsWith f ".md")

/-- `checkLinks` of part_008: all violations across the rule files. -/
def checkLinks (entries : List (String × String)) : List LinkError :=
  (entries.filter (fun fc => strEndsWith fc.1 ".md")).flatMap
    (fun fc => checkFileLinks (ruleFilesOf entries) fc.1 fc.2)

/-! ## Compiler (build.ts)

Modelled from the spec: the compiler itself (`build.ts`) is not among the
source files under `src/`; sections 4.6 and 3 of the spec describe it as a
pure function of the rule set, the section metadata and the version that
groups rules into sections by filename prefix, orders sections by rank and
rules by filename, numbers them hierarchically and emits one document;
`--upgrade-version` bumps the patch version and persists it. -/

structure SectionMeta where
  name : String
  pfx : String
  impact : String
  description : String
  rank : Nat
deriving DecidableEq

structure CompiledRule where
  filename : String
  title : String
  impact : String
  content : String
deriving DecidableEq

structure SkillMetadata where
  version : String
  organization : String
  abstract : String
deriving DecidableEq

/-- Lexicographic Bool comparison of char lists by code point. -/
def listLe : List Char → List Char → Bool
  | [], _ => true
  | _ :: _, [] => false
  | a :: as, b :: bs =>
    if a.toNat < b.toNat then true
    else if b.toNat < a.toNat then false
    else listLe as bs

def strLe (a b : String) : Bool :=
  listLe a.data b.data

/-- Insertion into a list sorted by the Bool comparator `le`. -/
def insertBy (le : α → α → Bool) (x : α) : List α → List α
  | [] => [x]
  | y :: ys => if le x y then x :: y :: ys else y :: insertBy le x ys

/-- Insertion sort by a Bool comparator (stable, deterministic). -/
def sortBy (le : α → α → Bool) : List α → List α
  | [] => []
  | x :: xs => insertBy le x (sortBy le xs)

/-- Modelled from the spec: one rule rendered under its hierarchical
`sectionRank.ruleIndex` number. -/
def renderRuleEntry (secRank idx : Nat) (r : CompiledRule) : String :=
  "### " ++ toString secRank ++ "." ++ toString idx ++ ". " ++ r.title ++
  "\n\n**Impact: " ++ r.impact ++ "**\n\n" ++ r.content ++ "\n\n"

def renderRules (secRank idx : Nat) : List CompiledRule → String
  | [] => ""
  | r :: rs => renderRuleEntry secRank idx r ++ renderRules secRank (idx + 1) rs

/-- Modelled from the spec: one section with its rules, ordered by
filename, prefix-matched on the section's filename prefix. -/
def renderSection (rules : List CompiledRule) (sec : SectionMeta) : String :=
  "## " ++ toString sec.rank ++ ". " ++ sec.name ++ "\n\n" ++
  sec.description ++ "\n\n" ++
  renderRules sec.rank 1
    (sortBy (fun a b => strLe a.filename b.filename)
      (rules.filter (fun r => listPrefixB sec.pfx.data r.filename.data)))

/-- Modelled from the spec: a table-of-contents line whose anchor matches
the numbering scheme. -/
def tocLine (sec : SectionMeta) : String :=
  "- [" ++ toString sec.rank ++ ". " ++ sec.name ++ "](#" ++
  toString sec.rank ++ "-" ++ sec.name ++ ")\n"

/-- Modelled from the spec: the compiled document — title block, version,
abstract, generated table of contents, numbered sections and rules. -/
def compileDocument (meta : SkillMetadata) (secs : List SectionMeta)
    (rules : List CompiledRule) : String :=
  let ordered := sortBy (fun a b => decide (a.rank ≤ b.rank)) secs
  "# ClickHouse Best Practices\n\nVersion: " ++ meta.version ++
  "\nOrganization: " ++ meta.organization ++ "\n\n" ++ meta.abstract ++
  "\n\n## Table of Contents\n\n" ++ String.join (ordered.map tocLine) ++
  "\n" ++ String.join (ordered.map (renderSection rules))

def natOfDigits (l : List Char) : Nat :=
  l.foldl (fun acc c => acc * 10 + (c.toNat - 48)) 0

/-- Split a char list on `.` separators. -/
def splitOnDot : List Char → List (List Char)
  | [] => [[]]
  | '.' :: rest => [] :: splitOnDot rest
  | c :: rest =>
    match splitOnDot rest with
    | [] => [[c]]
    | p :: ps => (c :: p) :: ps

/-- Modelled from the spec: the patch-level semantic version bump of
`--upgrade-version`. -/
def bumpPatch (v : String) : String :=
  match splitOnDot v.data with
  | [major, mnr, patch] =>
    (⟨major⟩ : String) ++ "." ++ (⟨mnr⟩ : String) ++ "." ++
      toString (natOfDigits patch + 1)
  | _ => v

/-- The persisted metadata state read and (on upgrade) written back by a
build invocation. -/
structure BuildState where
  version : String
deriving DecidableEq

/-- Modelled from the spec: one build invocation — re-reads the current
version, bumps it only in upgrade mode, emits the compiled document and
returns the persisted state. -/
def build (st : BuildState) (upgradeVersion : Bool) (secs : List SectionMeta)
    (rules : List CompiledRule) (org abstract : String) : String × BuildState :=
  let v := if upgradeVersion then bumpPatch st.version else st.version
  (compileDocument ⟨v, org, abstract⟩ secs rules, ⟨v⟩)

/-! ## Theorems -/

/-- Claim C1: every SQL snippet matched by the deny-list — including
constructs hidden behind block or line comments, extra whitespace or
newlines between the function name and the parenthesis, or mixed case —
makes `validateSQL` return the security-classified error with an empty
effect trace: the snippet is neither written to a temporary file nor
submitted to the engine, so the engine-invocation branch is unreachable.
The concrete conjuncts show representative obfuscations being caught. -/
theorem c1_denylist_blocks_engine :
    (∀ sql stderr msg, containsDangerousPatterns sql = some msg →
      validateSQL sql stderr = (some msg, []) ∧
      ∃ desc, msg = "Security: SQL contains dangerous pattern: " ++ desc) ∧
    containsDangerousPatterns "SELECT * FROM file(x)" =
      some "Security: SQL contains dangerous pattern: file() table function (file system access)" ∧
    containsDangerousPatterns "SELECT * FROM file/* hidden */(x)" =
      some "Security: SQL contains dangerous pattern: file() table function (file system access)" ∧
    containsDangerousPatterns "SELECT * FROM uRl --comment\n  (x)" =
      some "Security: SQL contains dangerous pattern: url() table function (HTTP access)" ∧
    containsDangerousPatterns "SELECT SLEEP\n(3)" =
      some "Security: SQL contains dangerous pattern: sleep() function (timing attack vector)" ∧
    containsDangerousPatterns "SELECT 1" = none := by
  refine ⟨?_, rfl, rfl, rfl, rfl, rfl⟩
  intro sql stderr msg h
  refine ⟨by simp [validateSQL, h], ?_⟩
  simp only [containsDangerousPatterns] at h
  cases hf : dangerousList.find? (fun p => scanPattern p.1.data false (sqlNoComments sql.data)) with
  | none => rw [hf] at h; simp at h
  | some p => rw [hf] at h; simp at h; exact ⟨p.2, h.symm⟩

/-- Claim C1 witness: the deny-list theorem applied to a concrete
dangerous snippet. -/
theorem c1_witness :
    validateSQL "SELECT * FROM file(x)" "" =
      (some "Security: SQL contains dangerous pattern: file() table function (file system access)", []) ∧
    ∃ desc, "Security: SQL contains dangerous pattern: file() table function (file system access)" =
      "Security: SQL contains dangerous pattern: " ++ desc :=
  c1_denylist_blocks_engine.1 "SELECT * FROM file(x)" "" _ rfl

/-- Claim C2 counterexample: the build package's `validateSQL`
(packages/clickhouse-best-practices-build/src/validate-sql.ts, cited as a
source of the claim) submits snippets to the engine with none of the
restrictive flags — not even `readonly=2` — and without any deny-list
check, so "no snippet is ever passed to the engine without these flags"
is false for the program as a whole: even a deny-listed snippet reaches
the engine through this script. -/
theorem c2_counterexample_build_pkg_unrestricted :
    (BuildPkg.validateSQL "SELECT * FROM file(x)" "").2 =
      [SQLEffect.writeTempFile "SELECT * FROM file(x)",
       SQLEffect.invokeEngine buildEngineFlags "SELECT * FROM file(x)"] ∧
    buildEngineFlags.contains "--readonly=2" = false ∧
    containsDangerousPatterns "SELECT * FROM file(x)" =
      some "Security: SQL contains dangerous pattern: file() table function (file system access)" :=
  ⟨rfl, by decide, rfl⟩

/-- Claim C2 (amended): every engine invocation of the hardened validator
(src/unnamed/part_010) carries exactly the full restrictive flag set —
readonly=2, allow_ddl=0, allow_introspection_functions=0, the
execution-time/memory/row caps, and the redirected file/schema paths —
and is made only on the snippet that passed the deny-list. -/
theorem c2_amended_hardened_flags (sql stderr : String) (flags : List String)
    (s : String)
    (h : SQLEffect.invokeEngine flags s ∈ (validateSQL sql stderr).2) :
    flags = hardenedEngineFlags ∧ s = sql ∧
    containsDangerousPatterns sql = none ∧
    restrictiveFlags.all (fun fl => flags.contains fl) = true := by
  cases hd : containsDangerousPatterns sql with
  | some msg => simp [validateSQL, hd] at h
  | none =>
    simp only [validateSQL, hd, List.mem_cons, List.not_mem_nil, or_false] at h
    rcases h with h | h
    · exact absurd h (by simp)
    · simp only [SQLEffect.invokeEngine.injEq] at h
      obtain ⟨hf, hs⟩ := h
      subst hf
      subst hs
      exact ⟨rfl, rfl, rfl, by decide⟩

/-- Claim C2 witness: the amended flag theorem applied to a concrete safe
snippet. -/
theorem c2_witness :
    hardenedEngineFlags = hardenedEngineFlags ∧
    ("SELECT 1" : String) = "SELECT 1" ∧
    containsDangerousPatterns "SELECT 1" = none ∧
    restrictiveFlags.all (fun fl => hardenedEngineFlags.contains fl) = true :=
  c2_amended_hardened_flags "SELECT 1" "" hardenedEngineFlags "SELECT 1" (by decide)

/-- Claim C6: whenever the engine binary cannot be acquired — binary
absent and the platform unsupported, or absent and the download failing —
`validateSQLInRules` warns, skips SQL validation and exits 0, never with a
failure status, whatever the error count would have been. -/
theorem c6_degraded_mode_exits_zero :
    (∀ (b : Bool) (p : NodePlatform) (d : Bool) (n : Nat),
      ensureClickHouse b p d = false →
      validateSQLInRules b p d n = ⟨true, 0⟩) ∧
    (∀ (s : String) (d : Bool) (n : Nat),
      validateSQLInRules false (NodePlatform.other s) d n = ⟨true, 0⟩) ∧
    (∀ n : Nat, validateSQLInRules false NodePlatform.linux false n = ⟨true, 0⟩) := by
  refine ⟨?_, ?_, ?_⟩
  · intro b p d n h
    simp [validateSQLInRules, h]
  · intro s d n
    rfl
  · intro n
    rfl

/-- Claim C6 witness: degraded mode on an unsupported platform. -/
theorem c6_witness :
    validateSQLInRules false (NodePlatform.other "win32") true 5 = ⟨true, 0⟩ :=
  c6_degraded_mode_exits_zero.1 false (NodePlatform.other "win32") true 5 rfl

/-- Claim C8 (spec-modelled: build.ts is not among the provided source
files): compiling the same unchanged rule set and section metadata twice
without the version-upgrade mode leaves the persisted version unchanged
and produces byte-identical output documents. -/
theorem c8_build_deterministic (st : BuildState) (secs : List SectionMeta)
    (rules : List CompiledRule) (org abstract : String) :
    (build st false secs rules org abstract).2 = st ∧
    (build ((build st false secs rules org abstract).2) false secs rules org abstract).1 =
      (build st false secs rules org abstract).1 := by
  have h1 : (build st false secs rules org abstract).2 = st := by
    cases st
    rfl
  exact ⟨h1, by rw [h1]⟩

/-- Helper: exactly when `classifyLink` reports a violation. -/
theorem classifyLink_some_iff (ruleFiles : List String) (file link : String)
    (e : LinkError) :
    classifyLink ruleFiles file link = some e ↔
    (isInternalLink link = true ∧ strEndsWith link ".md" = true ∧
     ruleFiles.contains (basename link) = false ∧
     e = ⟨file, link, "Referenced file does not exist: " ++ basename link⟩) := by
  unfold classifyLink
  split_ifs with h1 h2 h3 h4 <;> simp_all
  exact eq_comm

/-- Claim C5 counterexample: an internal link ending in a file extension
other than `.md` (here `.txt`) whose referenced file does not exist in the
rule set produces no violation — the checker resolves only `.md` links, so
"reports a violation iff no file with that exact name exists" fails for
links ending in other extensions. -/
theorem c5_counterexample_txt_link_ignored :
    checkLinks [("rule-a.md", "[notes](notes.txt)")] = [] ∧
    isInternalLink "notes.txt" = true ∧
    strEndsWith "notes.txt" ".txt" = true ∧
    (ruleFilesOf [("rule-a.md", "[notes](notes.txt)")]).contains "notes.txt" = false :=
  ⟨rfl, rfl, rfl, by decide⟩

/-- Claim C5 (amended): for every internal link ending in `.md` (the one
file extension the checker resolves), a violation naming that link is
reported iff no rule file with that exact basename exists in the rule
set; links whose referenced file exists produce no violation. -/
theorem c5_amended_md_violation_iff (ruleFiles : List String)
    (file content link : String)
    (hmem : link ∈ extractLinks content)
    (hint : isInternalLink link = true)
    (hmd : strEndsWith link ".md" = true) :
    (∃ e, e ∈ checkFileLinks ruleFiles file content ∧ e.link = link) ↔
    ruleFiles.contains (basename link) = false := by
  constructor
  · rintro ⟨e, he, hl⟩
    rw [checkFileLinks, List.mem_filterMap] at he
    obtain ⟨a, _, hcl⟩ := he
    rw [classifyLink_some_iff] at hcl
    obtain ⟨_, _, hc, he2⟩ := hcl
    subst he2
    simp only at hl
    rwa [hl] at hc
  · intro hc
    refine ⟨⟨file, link, "Referenced file does not exist: " ++ basename link⟩, ?_, rfl⟩
    rw [checkFileLinks, List.mem_filterMap]
    exact ⟨link, hmem, (classifyLink_some_iff ruleFiles file link _).mpr
      ⟨hint, hmd, hc, rfl⟩⟩

/-- Claim C5 witness: a broken `.md` reference is reported. -/
theorem c5_witness :
    ∃ e, e ∈ checkFileLinks ["rule-a.md"] "rule-b.md" "[x](missing.md)" ∧
      e.link = "missing.md" :=
  (c5_amended_md_violation_iff ["rule-a.md"] "rule-b.md" "[x](missing.md)"
    "missing.md" (by decide) (by decide) (by decide)).mpr (by decide)

/-- Claim C10 counterexample: an anchor-only link that happens to end in
`.md` is treated as a file reference (the `.md` test precedes the `#`
test), so the checker does report a violation for an anchor-only link. -/
theorem c10_counterexample_anchor_md_link :
    checkLinks [("rule-a.md", "[s](#anchor.md)")] =
      [⟨"rule-a.md", "#anchor.md", "Referenced file does not exist: #anchor.md"⟩] ∧
    strStartsWith "#anchor.md" "#" = true :=
  ⟨rfl, rfl⟩

/-- Claim C10 (amended): every violation reported by the internal link
checker names a link ending in `.md`; in particular anchor-only links not
ending in `.md` — which includes every ordinary section anchor — are never
reported, no matter whether any rule file matches the anchor's prefix. -/
theorem c10_amended_only_md_links_violate (entries : List (String × String))
    (e : LinkError) (he : e ∈ checkLinks entries) :
    strEndsWith e.link ".md" = true := by
  simp only [checkLinks, List.mem_flatMap, List.mem_filter] at he
  obtain ⟨fc, _, hein⟩ := he
  simp only [checkFileLinks, List.mem_filterMap] at hein
  obtain ⟨a, _, hcl⟩ := hein
  rw [classifyLink_some_iff] at hcl
  obtain ⟨_, hmd, _, he2⟩ := hcl
  subst he2
  exact hmd

/-- Claim C10 witness: the only-`.md` theorem applied to a concrete
reported violation. -/
theorem c10_witness :
    strEndsWith
      (LinkError.link ⟨"rule-a.md", "#anchor.md", "Referenced file does not exist: #anchor.md"⟩)
      ".md" = true :=
  c10_amended_only_md_links_violate [("rule-a.md", "[s](#anchor.md)")] _ (by decide)

/-- Helper: a step of the retry loop at attempt 0 (no sleep, no retry
increment) when the attempt does not succeed. -/
theorem validateUrlAux_step0 (url : String) (src : String × String)
    (envs : Nat → AttemptEnv) (r : Nat) (le : String) (lsc : Option Nat)
    (ru sl : Nat)
    (h : ∀ s, (runAttempt (envs 0)).1 ≠ AttemptResult.success s) :
    ∃ e2 lsc2,
      validateUrlAux url src envs (r + 1) 0 le lsc ru sl =
      validateUrlAux url src envs r 1 e2 lsc2 ru sl := by
  cases hr : (runAttempt (envs 0)).1 with
  | success s => exact absurd hr (h s)
  | failStatus c m => exact ⟨m, some c, by simp [validateUrlAux, hr]⟩
  | failError m => exact ⟨m, lsc, by simp [validateUrlAux, hr]⟩

/-- Helper: a step of the retry loop at attempt `a + 1` (sleeps the
backoff delay and counts one retry) when the attempt does not succeed. -/
theorem validateUrlAux_stepS (url : String) (src : String × String)
    (envs : Nat → AttemptEnv) (r a : Nat) (le : String) (lsc : Option Nat)
    (ru sl : Nat)
    (h : ∀ s, (runAttempt (envs (a + 1))).1 ≠ AttemptResult.success s) :
    ∃ e2 lsc2,
      validateUrlAux url src envs (r + 1) (a + 1) le lsc ru sl =
      validateUrlAux url src envs r (a + 2) e2 lsc2 (ru + 1)
        (sl + retryDelay (a + 1)) := by
  cases hr : (runAttempt (envs (a + 1))).1 with
  | success s => exact absurd hr (h s)
  | failStatus c m => exact ⟨m, some c, by simp [validateUrlAux, hr]⟩
  | failError m => exact ⟨m, lsc, by simp [validateUrlAux, hr]⟩

/-- Claim C3 counterexample: with every attempt failing (DNS error on all
three attempts), `validateUrl` records `retriesUsed = MAX_RETRIES = 2` but
sleeps only 100 + 200 = 300 ms in total — the backoff index
`min(attempt-1, 2)` never reaches the third configured delay — so the
total sleep is not at least the 700 ms sum of `RETRY_DELAYS`. -/
theorem c3_counterexample_sleep_is_300 :
    (runAttempt (dnsFailEnv 0)).1 = AttemptResult.failError "DNS lookup failed" ∧
    (runAttempt (dnsFailEnv 1)).1 = AttemptResult.failError "DNS lookup failed" ∧
    (runAttempt (dnsFailEnv 2)).1 = AttemptResult.failError "DNS lookup failed" ∧
    validateUrl "https://example.com/x" ("clickhouse-best-practices", "README.md")
        dnsFailEnv MAX_RETRIES =
      (⟨"https://example.com/x", false, none, some "DNS lookup failed",
        ("clickhouse-best-practices", "README.md"), 2⟩, 300) ∧
    ¬ (300 ≥ RETRY_DELAYS.sum) :=
  ⟨rfl, rfl, rfl, rfl, by decide⟩

/-- Claim C3 (amended): for an external URL failing every attempt,
`retriesUsed` equals the configured maximum retry count, and the total
time slept equals the sum of the backoff delays actually used — the first
`MAX_RETRIES` entries of `RETRY_DELAYS` (100 + 200 = 300 ms), not the sum
of all three configured delays. -/
theorem c3_amended_all_fail (envs : Nat → AttemptEnv) (url : String)
    (src : String × String)
    (h : ∀ i, i ≤ MAX_RETRIES → ∀ s, (runAttempt (envs i)).1 ≠ AttemptResult.success s) :
    (validateUrl url src envs MAX_RETRIES).1.success = false ∧
    (validateUrl url src envs MAX_RETRIES).1.retriesUsed = MAX_RETRIES ∧
    (validateUrl url src envs MAX_RETRIES).2 = (RETRY_DELAYS.take MAX_RETRIES).sum := by
  obtain ⟨e1, l1, h0⟩ :=
    validateUrlAux_step0 url src envs 2 "" none 0 0 (h 0 (by decide))
  obtain ⟨e2, l2, h1⟩ :=
    validateUrlAux_stepS url src envs 1 0 e1 l1 0 0 (h 1 (by decide))
  obtain ⟨e3, l3, h2⟩ :=
    validateUrlAux_stepS url src envs 0 1 e2 l2 1 (0 + retryDelay 1) (h 2 (by decide))
  have hv : validateUrl url src envs MAX_RETRIES =
      validateUrlAux url src envs 3 0 "" none 0 0 := rfl
  have hchain := (hv.trans h0).trans (h1.trans h2)
  rw [hchain]
  refine ⟨rfl, rfl, ?_⟩
  show 0 + retryDelay 1 + retryDelay 2 = (RETRY_DELAYS.take MAX_RETRIES).sum
  decide

/-- Claim C3 witness: the amended all-fail theorem at the concrete
all-DNS-failure network oracle. -/
theorem c3_witness :
    (validateUrl "https://e.com" ("s", "f") dnsFailEnv MAX_RETRIES).1.success = false ∧
    (validateUrl "https://e.com" ("s", "f") dnsFailEnv MAX_RETRIES).1.retriesUsed = MAX_RETRIES ∧
    (validateUrl "https://e.com" ("s", "f") dnsFailEnv MAX_RETRIES).2 =
      (RETRY_DELAYS.take MAX_RETRIES).sum :=
  c3_amended_all_fail dnsFailEnv "https://e.com" ("s", "f")
    (fun i _ s h => by simp [dnsFailEnv, runAttempt, classifyError] at h)

/-- Claim C4: an external URL that times out on the first two attempts and
returns HTTP 200 on the third yields a successful `LinkCheckResult` with
`statusCode = 200` and `retriesUsed = 2` (having slept 100 + 200 ms). -/
theorem c4_timeout_twice_then_200 :
    validateUrl "https://clickhouse.com/docs" ("clickhouse-best-practices", "SKILL.md")
        timeoutTwiceEnv MAX_RETRIES =
      (⟨"https://clickhouse.com/docs", true, some 200, none,
        ("clickhouse-best-practices", "SKILL.md"), 2⟩, 300) := by
  rfl

/-- Claim C7: per probe attempt, HEAD is always issued first; GET is
issued only when the HEAD response was not ok; a 2xx HEAD response, or a
2xx GET response after a non-ok HEAD, ends the attempt immediately with
that status; and a first-attempt success returns the successful
`LinkCheckResult` at once with no retries and no sleep. -/
theorem c7_probe_protocol :
    (∀ env : AttemptEnv, (runAttempt env).2.head? = some HttpMethod.head) ∧
    (∀ env : AttemptEnv, HttpMethod.get ∈ (runAttempt env).2 →
      ∃ r, env.headReq = FetchOutcome.resp r ∧ respOk r = false) ∧
    (∀ (env : AttemptEnv) (r : HttpResponse), env.headReq = FetchOutcome.resp r →
      respOk r = true →
      runAttempt env = (AttemptResult.success r.status, [HttpMethod.head])) ∧
    (∀ (env : AttemptEnv) (r g : HttpResponse), env.headReq = FetchOutcome.resp r →
      respOk r = false → env.getReq = FetchOutcome.resp g → respOk g = true →
      runAttempt env = (AttemptResult.success g.status, [HttpMethod.head, HttpMethod.get])) ∧
    (∀ (envs : Nat → AttemptEnv) (url : String) (src : String × String) (s : Nat),
      (runAttempt (envs 0)).1 = AttemptResult.success s →
      validateUrl url src envs MAX_RETRIES = (⟨url, true, some s, none, src, 0⟩, 0)) := by
  refine ⟨?_, ?_, ?_, ?_, ?_⟩
  · intro env
    cases hh : env.headReq <;> cases hg : env.getReq <;>
      simp only [runAttempt, hh, hg] <;>
      first
      | rfl
      | (split_ifs <;> rfl)
  · intro env hget
    cases hh : env.headReq with
    | resp r =>
      by_cases hok : respOk r = true
      · simp [runAttempt, hh, hok] at hget
      · refine ⟨r, rfl, by simpa using hok⟩
    | abortError => simp [runAttempt, hh] at hget
    | dnsError => simp [runAttempt, hh] at hget
    | connRefusedError => simp [runAttempt, hh] at hget
    | otherError m => simp [runAttempt, hh] at hget
  · intro env r hh hok
    simp [runAttempt, hh, hok]
  · intro env r g hh hok hg hgok
    simp [runAttempt, hh, hok, hg, hgok]
  · intro envs url src s hr
    simp [validateUrl, MAX_RETRIES, validateUrlAux, hr]

/-- Claim C7 witness: a 2xx HEAD response ends the attempt with only the
HEAD request issued. -/
theorem c7_witness :
    runAttempt ⟨FetchOutcome.resp ⟨200, "OK"⟩, FetchOutcome.resp ⟨500, "ISE"⟩⟩ =
      (AttemptResult.success 200, [HttpMethod.head]) :=
  c7_probe_protocol.2.2.1 ⟨FetchOutcome.resp ⟨200, "OK"⟩, FetchOutcome.resp ⟨500, "ISE"⟩⟩
    ⟨200, "OK"⟩ rfl rfl

/-- Helper: a successful attempt result always carries a 2xx status. -/
theorem runAttempt_success_status (env : AttemptEnv) (s : Nat)
    (h : (runAttempt env).1 = AttemptResult.success s) :
    200 ≤ s ∧ s < 300 := by
  cases hh : env.headReq with
  | resp r =>
    by_cases hok : respOk r = true
    · simp only [runAttempt, hh, hok, if_true] at h
      have := of_decide_eq_true hok
      cases h
      exact this
    · cases hg : env.getReq with
      | resp g =>
        by_cases hgok : respOk g = true
        · simp only [runAttempt, hh, hok, hg, hgok, if_true, if_false] at h
          have := of_decide_eq_true hgok
          cases h
          exact this
        · simp [runAttempt, hh, hok, hg, hgok] at h
      | abortError => simp [runAttempt, hh, hok, hg] at h
      | dnsError => simp [runAttempt, hh, hok, hg] at h
      | connRefusedError => simp [runAttempt, hh, hok, hg] at h
      | otherError m => simp [runAttempt, hh, hok, hg] at h
  | abortError => simp [runAttempt, hh] at h
  | dnsError => simp [runAttempt, hh] at h
  | connRefusedError => simp [runAttempt, hh] at h
  | otherError m => simp [runAttempt, hh] at h

/-- Helper: starting from attempt `a + 1` with `r` attempts left, at most
`r` further retries are counted. -/
theorem validateUrlAux_retries_le (url : String) (src : String × String)
    (envs : Nat → AttemptEnv) :
    ∀ (r a : Nat) (le : String) (lsc : Option Nat) (ru sl : Nat),
      (validateUrlAux url src envs r (a + 1) le lsc ru sl).1.retriesUsed ≤ ru + r := by
  intro r
  induction r with
  | zero =>
    intro a le lsc ru sl
    simp [validateUrlAux]
  | succ n ih =>
    intro a le lsc ru sl
    cases hr : (runAttempt (envs (a + 1))).1 with
    | success s =>
      simp [validateUrlAux, hr]
    | failStatus c m =>
      have h2 := ih (a + 1) m (some c) (ru + 1) (sl + retryDelay (a + 1))
      simp only [validateUrlAux, hr, gt_iff_lt, Nat.succ_pos, if_pos]
      omega
    | failError m =>
      have h2 := ih (a + 1) m lsc (ru + 1) (sl + retryDelay (a + 1))
      simp only [validateUrlAux, hr, gt_iff_lt, Nat.succ_pos, if_pos]
      omega

/-- Helper: a successful `LinkCheckResult` of the retry loop carries a 2xx
status code and no error message. -/
theorem validateUrlAux_success_shape (url : String) (src : String × String)
    (envs : Nat → AttemptEnv) :
    ∀ (r a : Nat) (le : String) (lsc : Option Nat) (ru sl : Nat),
      (validateUrlAux url src envs r a le lsc ru sl).1.success = true →
      ∃ s, (validateUrlAux url src envs r a le lsc ru sl).1.statusCode = some s ∧
        200 ≤ s ∧ s < 300 ∧
        (validateUrlAux url src envs r a le lsc ru sl).1.error = none := by
  intro r
  induction r with
  | zero =>
    intro a le lsc ru sl h
    simp [validateUrlAux] at h
  | succ n ih =>
    intro a le lsc ru sl h
    cases hr : (runAttempt (envs a)).1 with
    | success s =>
      obtain ⟨h1, h2⟩ := runAttempt_success_status (envs a) s hr
      exact ⟨s, by simp [validateUrlAux, hr], h1, h2, by simp [validateUrlAux, hr]⟩
    | failStatus c m =>
      simp only [validateUrlAux, hr] at h ⊢
      exact ih (a + 1) m (some c) _ _ h
    | failError m =>
      simp only [validateUrlAux, hr] at h ⊢
      exact ih (a + 1) m lsc _ _ h

/-- Claim C9: every `LinkCheckResult` returned by `validateUrl` satisfies
the invariant — `retriesUsed` is at most the configured maximum retry
count, and a successful result carries a defined status code in 200–299
and no error message. -/
theorem c9_result_invariant (envs : Nat → AttemptEnv) (url : String)
    (src : String × String) (m : Nat) :
    (validateUrl url src envs m).1.retriesUsed ≤ m ∧
    ((validateUrl url src envs m).1.success = true →
      ∃ s, (validateUrl url src envs m).1.statusCode = some s ∧
        200 ≤ s ∧ s < 300 ∧ (validateUrl url src envs m).1.error = none) := by
  have hv : validateUrl url src envs m =
      validateUrlAux url src envs (m + 1) 0 "" none 0 0 := rfl
  constructor
  · rw [hv]
    cases hr : (runAttempt (envs 0)).1 with
    | success s => simp [validateUrlAux, hr]
    | failStatus c mm =>
      have h2 := validateUrlAux_retries_le url src envs m 0 mm (some c) 0 0
      simp only [validateUrlAux, hr, gt_iff_lt, lt_self_iff_false, if_false]
      omega
    | failError mm =>
      have h2 := validateUrlAux_retries_le url src envs m 0 mm none 0 0
      simp only [validateUrlAux, hr, gt_iff_lt, lt_self_iff_false, if_false]
      omega
  · rw [hv]
    exact validateUrlAux_success_shape url src envs (m + 1) 0 "" none 0 0

/-- Claim C9 witness: the invariant at a concrete immediately-successful
probe. -/
theorem c9_witness :
    (validateUrl "https://example.com" ("s", "f") okEnv 2).1.retriesUsed ≤ 2 ∧
    (∃ s, (validateUrl "https://example.com" ("s", "f") okEnv 2).1.statusCode = some s ∧
      200 ≤ s ∧ s < 300 ∧
      (validateUrl "https://example.com" ("s", "f") okEnv 2).1.error = none) :=
  ⟨(c9_result_invariant okEnv "https://example.com" ("s", "f") 2).1,
   (c9_result_invariant okEnv "https://example.com" ("s", "f") 2).2 rfl⟩
